import Mathlib

/-!
Verification of the image optimize/upload pipeline
(`anthropic_image_converter.py` and `optimized_image_sender.py`).

The development shallowly embeds the two scripts:

* pure computations (the resize policy, path manipulation, metadata
  assembly, response classification, exit-code logic) are translated to
  executable Lean functions;
* calls into external libraries (PIL decode/encode, the HTTP client,
  the filesystem) are modelled as oracles passed in as arguments, with
  the scripts' own control flow around them translated faithfully;
* CPython evaluates `height * (max_dimension / width)` in IEEE-754
  double precision, so the development includes an exact model of
  round-to-nearest-even double rounding over rationals (binary64 has a
  53-bit significand; all quantities that occur stay far inside the
  normal range, so neither overflow nor subnormals need modelling).
-/

/-! ## Exact fractions (no normalisation, kernel-computable) -/

/-- An exact fraction `num / den`.  All constructions keep `den` a
positive natural number, and no gcd normalisation is performed, so all
operations reduce inside the kernel. -/
structure Frac where
  num : ℤ
  den : ℕ

def Frac.ofNat (n : ℕ) : Frac :=
  ⟨(n : ℤ), 1⟩

def Frac.mul (a b : Frac) : Frac :=
  ⟨a.num * b.num, a.den * b.den⟩

/-- Exact division of fractions; the sign is moved into the numerator so
the denominator stays positive.  (Every division performed by the
scripts has a positive divisor.) -/
def Frac.div (a b : Frac) : Frac :=
  if 0 ≤ b.num then ⟨a.num * (b.den : ℤ), a.den * b.num.toNat⟩
  else ⟨-(a.num * (b.den : ℤ)), a.den * (-b.num).toNat⟩

def Frac.neg (a : Frac) : Frac :=
  ⟨-a.num, a.den⟩

/-- Floor of a fraction, as an integer. -/
def Frac.floorInt (a : Frac) : ℤ :=
  Int.fdiv a.num (a.den : ℤ)

/-- Truncation toward zero: exactly what Python's `int()` does to a
(non-NaN, finite) float. -/
def Frac.truncInt (a : Frac) : ℤ :=
  Int.tdiv a.num (a.den : ℤ)

/-! ## IEEE-754 binary64 rounding, modelled exactly -/

/-- `fuelLog2 fuel n` is `⌊log₂ n⌋` for `1 ≤ n` whenever `n ≤ fuel`
(structural recursion on explicit fuel keeps it kernel-computable). -/
def fuelLog2 : ℕ → ℕ → ℕ
  | 0, _ => 0
  | fuel + 1, n => if n < 2 then 0 else fuelLog2 fuel (n / 2) + 1

/-- `fuelCLog2 fuel a b` is the least `k` with `b ≤ a * 2 ^ k`, for
`1 ≤ a < b` whenever `b ≤ fuel` suffices as fuel. -/
def fuelCLog2 : ℕ → ℕ → ℕ → ℕ
  | 0, _, _ => 0
  | fuel + 1, a, b => if b ≤ a then 0 else fuelCLog2 fuel (2 * a) b + 1

/-- `⌊log₂ q⌋` for a positive fraction `q`. -/
def fracExp2 (q : Frac) : ℤ :=
  let a := q.num.toNat
  let b := q.den
  if b ≤ a then ((fuelLog2 (a / b) (a / b) : ℕ) : ℤ)
  else -((fuelCLog2 b a b : ℕ) : ℤ)

/-- Round a fraction to the nearest integer, ties to even. -/
def roundHalfEven (x : Frac) : ℤ :=
  let f := x.floorInt
  let r2 : ℤ := 2 * (x.num - f * (x.den : ℤ))
  if r2 < (x.den : ℤ) then f
  else if (x.den : ℤ) < r2 then f + 1
  else if f % 2 = 0 then f else f + 1

/-- Round a positive fraction to the nearest IEEE-754 binary64 value
(round to nearest, ties to even): scale into `[2^52, 2^53)`, round the
significand half-to-even, and scale back. -/
def roundDoublePos (q : Frac) : Frac :=
  let e : ℤ := fracExp2 q
  let s : ℤ := 52 - e
  if 0 ≤ s then
    ⟨roundHalfEven ⟨q.num * ((2 ^ s.toNat : ℕ) : ℤ), q.den⟩, 2 ^ s.toNat⟩
  else
    ⟨roundHalfEven ⟨q.num, q.den * 2 ^ (-s).toNat⟩ * ((2 ^ (-s).toNat : ℕ) : ℤ), 1⟩

/-- Round an arbitrary fraction to the nearest binary64 value. -/
def roundDouble (q : Frac) : Frac :=
  if q.num = 0 then ⟨0, 1⟩
  else if q.num < 0 then Frac.neg (roundDoublePos (Frac.neg q))
  else roundDoublePos q

/-- CPython true division of two exact values: the correctly rounded
double of the exact quotient (CPython's `int.__truediv__` is correctly
rounded even for big operands). -/
def pyFloatDiv (a b : Frac) : Frac :=
  roundDouble (a.div b)

/-- CPython float multiplication: the correctly rounded double of the
exact product of two doubles. -/
def pyFloatMul (a b : Frac) : Frac :=
  roundDouble (a.mul b)

/-! ## The resize policy

`resize_image` in `anthropic_image_converter.py` (lines 71-87) and
`optimized_image_sender.py` (lines 122-138) — both scripts contain the
identical function.  `resize_dims` is its dimension computation:

    width, height = image.size
    if width <= max_dimension and height <= max_dimension:
        return image
    if width > height:
        new_width = max_dimension
        new_height = int(height * (max_dimension / width))
    else:
        new_height = max_dimension
        new_width = int(width * (max_dimension / height))

`max_dimension / width` is float true division; the int operand of the
subsequent multiplication is converted to float; `int()` truncates. -/

def resize_dims (width height max_dimension : ℕ) : ℤ × ℤ :=
  if width ≤ max_dimension ∧ height ≤ max_dimension then
    ((width : ℤ), (height : ℤ))
  else if height < width then
    ((max_dimension : ℤ),
      (pyFloatMul (roundDouble (Frac.ofNat height))
        (pyFloatDiv (Frac.ofNat max_dimension) (Frac.ofNat width))).truncInt)
  else
    ((pyFloatMul (roundDouble (Frac.ofNat width))
        (pyFloatDiv (Frac.ofNat max_dimension) (Frac.ofNat height))).truncInt,
      (max_dimension : ℤ))

/-! ## String and path helpers

`pathlib.PurePath` semantics for the pieces the scripts use: `name` is
the final `/`-separated component; `suffix` is the final extension of
`name` (empty when the only dot is leading or trailing); `stem` is
`name` without `suffix`.  Strings are manipulated through their
character lists so everything reduces inside the kernel. -/

def splitOnChar (c : Char) : List Char → List (List Char)
  | [] => [[]]
  | x :: xs =>
    match splitOnChar c xs with
    | [] => [[x]]
    | g :: gs => if x = c then [] :: g :: gs else (x :: g) :: gs

/-- Index (from the left) of the last occurrence of `c`, if any. -/
def rfindIdx (c : Char) : List Char → Option ℕ
  | [] => none
  | x :: xs =>
    match rfindIdx c xs with
    | some i => some (i + 1)
    | none => if x = c then some 0 else none

/-- `PurePath.suffix` applied to a final component: the part of `name`
from its last dot on, unless that dot is the first or last character. -/
def nameSuffixChars (name : List Char) : List Char :=
  match rfindIdx '.' name with
  | some i => if 0 < i ∧ i + 1 < name.length then name.drop i else []
  | none => []

/-- `PurePath.stem` applied to a final component. -/
def nameStemChars (name : List Char) : List Char :=
  match rfindIdx '.' name with
  | some i => if 0 < i ∧ i + 1 < name.length then name.take i else name
  | none => name

def pathNameChars (p : List Char) : List Char :=
  (splitOnChar '/' p).getLastD []

def pathName (p : String) : String :=
  ⟨pathNameChars p.data⟩

def nameSuffix (name : String) : String :=
  ⟨nameSuffixChars name.data⟩

def pathSuffix (p : String) : String :=
  ⟨nameSuffixChars (pathNameChars p.data)⟩

def pathStem (p : String) : String :=
  ⟨nameStemChars (pathNameChars p.data)⟩

/-- `str.lower()` (the strings the scripts lower-case are ASCII). -/
def pyLower (s : String) : String :=
  ⟨s.data.map Char.toLower⟩

/-- Python's `str.lstrip` with a dot argument: drop all leading dots. -/
def lstripDots (s : String) : String :=
  ⟨s.data.dropWhile (fun c => c = '.')⟩

/-! ## Shared constants of both scripts -/

def MAX_FILE_SIZE_BYTES : ℕ := 5 * 1024 * 1024

def emptyStr : String := ""

def slashStr : String := "/"

def dotStr : String := "."

def strJpg : String := "jpg"

def strJpeg : String := "jpeg"

def strPng : String := "png"

def strWebp : String := "webp"

def strGif : String := "gif"

def strRGBA : String := "RGBA"

def strRGB : String := "RGB"

def extJpg : String := ".jpg"

def extJpeg : String := ".jpeg"

def extPng : String := ".png"

def extGif : String := ".gif"

def extWebp : String := ".webp"

def keyFilename : String := "filename"

def keyOriginalFormat : String := "original_format"

def keyOptimizedPath : String := "optimized_path"

def keyImageBase64 : String := "image_base64"

def mimeJpeg : String := "image/jpeg"

def mimePng : String := "image/png"

def mimeWebp : String := "image/webp"

def mimeGif : String := "image/gif"

def respJsonStr : String := "_response.json"

def SUPPORTED_EXTENSIONS : List String := [extJpg, extJpeg, extPng, extGif, extWebp]

/-! ## The codec adapter and the optimizer pipeline

PIL is an external library; its operations are oracles collected in
`PILOps`.  `openImage = none` models `Image.open` raising, and a `none`
from a save oracle models the encoder raising; both are caught by the
scripts' `except` blocks. -/

structure PILOps (Img : Type) where
  openImage : Option Img
  mode : Img → String
  compositeWhite : Img → Img
  size : Img → ℕ × ℕ
  resizeTo : Img → ℤ × ℤ → Img
  convertRGB : Img → Img
  saveJPEG : Img → ℕ → Option (List ℕ)
  savePNG : Img → Option (List ℕ)
  saveWEBP : Img → ℕ → Option (List ℕ)

/-- `resize_image` at the image level: return the image unchanged when
both dimensions already fit, otherwise resize to the computed target
dimensions (`Image.LANCZOS` resampling is part of the oracle). -/
def resize_image {Img : Type} (ops : PILOps Img) (img : Img) (max_dimension : ℕ) : Img :=
  let wh := ops.size img
  if wh.1 ≤ max_dimension ∧ wh.2 ≤ max_dimension then img
  else ops.resizeTo img (resize_dims wh.1 wh.2 max_dimension)

/-- The RGBA fix-up both pipelines perform: an RGBA source headed for
JPEG is composited onto a white background first. -/
def convertForJpg {Img : Type} (ops : PILOps Img) (output_format : String) (img0 : Img) : Img :=
  if ops.mode img0 = strRGBA ∧ pyLower output_format = strJpg then ops.compositeWhite img0
  else img0

/-- The per-format encode branching shared by both pipelines (jpg with
RGB conversion and quality, png, webp with quality).  `fallback` is
what an unmatched format yields: the sender leaves its `BytesIO`
buffer empty (`some []`), the converter writes no file at all so the
later `getsize` raises (`none`).  Argparse restricts `--format` to the
three matched values. -/
def encodeStep {Img : Type} (ops : PILOps Img) (output_format : String) (quality : ℕ)
    (resized : Img) (fallback : Option (List ℕ)) : Option (List ℕ) :=
  if pyLower output_format = strJpg then ops.saveJPEG (ops.convertRGB resized) quality
  else if pyLower output_format = strPng then ops.savePNG resized
  else if pyLower output_format = strWebp then ops.saveWEBP resized quality
  else fallback

/-- `optimize_image_memory` from `optimized_image_sender.py` (lines
140-200).  Result: the encoded bytes (`none` models the caught
exception path returning `(None, None)`), and whether the oversize
warning was logged. -/
def optimize_image_memory {Img : Type} (ops : PILOps Img) (output_format : String)
    (quality max_dimension : ℕ) : Option (List ℕ) × Bool :=
  match ops.openImage with
  | none => (none, false)
  | some img0 =>
    match encodeStep ops output_format quality
        (resize_image ops (convertForJpg ops output_format img0) max_dimension) (some []) with
    | none => (none, false)
    | some data => (some data, decide (MAX_FILE_SIZE_BYTES < data.length))

/-- `optimize_image` from `anthropic_image_converter.py` (lines 89-132),
the variant that writes the encoded bytes to a file.  Result: whether
the call returned `True`, and whether the oversize warning was logged.
`input_size` is `os.path.getsize(input_path)`; when it is zero the
compression-ratio computation raises `ZeroDivisionError`, which the
`except` block turns into `False`. -/
def optimize_image {Img : Type} (ops : PILOps Img) (output_format : String)
    (quality max_dimension input_size : ℕ) : Bool × Bool :=
  match ops.openImage with
  | none => (false, false)
  | some img0 =>
    match encodeStep ops output_format quality
        (resize_image ops (convertForJpg ops output_format img0) max_dimension) none with
    | none => (false, false)
    | some data =>
      let warned := decide (MAX_FILE_SIZE_BYTES < data.length)
      if input_size = 0 then (false, warned) else (true, warned)

/-! ## The upload transaction -/

/-- The `requests` response: HTTP status, the result of `.json()`
(`none` models `response.json()` raising on an unparseable body), and
the body text. -/
structure HTTPResponse (J : Type) where
  status : ℕ
  jsonBody : Option J
  text : String

/-- Outcome of `requests.post`: a response, or a network-level
exception. -/
inductive PostOutcome (J : Type) where
  | resp : HTTPResponse J → PostOutcome J
  | exn : PostOutcome J

/-- Which log line `send_to_api` emits. -/
inductive SendLog where
  | ok : SendLog
  | auth401 : SendLog
  | auth403 : SendLog
  | apiError : ℕ → String → SendLog
  | requestError : SendLog

/-- `send_to_api` from `optimized_image_sender.py` (lines 244-305),
classified by the outcome of the POST.  On status 200 the parsed body
is returned; if `.json()` raises, the surrounding `except` catches it
and the function returns `None`.  401, 403, any other status and any
exception all return `None`; the generic branch logs the status and the
first 1000 characters of the body. -/
def send_to_api {J : Type} (post : PostOutcome J) : Option J × SendLog :=
  match post with
  | .exn => (none, .requestError)
  | .resp r =>
    if r.status = 200 then
      match r.jsonBody with
      | some j => (some j, .ok)
      | none => (none, .requestError)
    else if r.status = 401 then (none, .auth401)
    else if r.status = 403 then (none, .auth403)
    else (none, .apiError r.status (r.text.take 1000))

/-! ## The batch walker

A filesystem directory is modelled as a tree: the files directly inside
it, and the named subdirectories.  Giving the walker an `FSTree` is the
claim's premise that the root exists and is a directory (the scripts
return `[]` with a logged error otherwise).  Paths are lists of
components; `sorted()` on `pathlib.Path` objects compares the tuples of
components, which is the lexicographic order on component lists. -/

inductive FSTree where
  | node : List String → List (String × FSTree) → FSTree

mutual

/-- All files transitively under a directory, as component paths — the
`rglob` enumeration filtered by `is_file` (directories are never files
in the model, mirroring the `path.is_file()` check). -/
def filesOfTree (pre : List String) : FSTree → List (List String)
  | .node fs subs => fs.map (fun n => pre ++ [n]) ++ filesOfForest pre subs

def filesOfForest (pre : List String) : List (String × FSTree) → List (List String)
  | [] => []
  | d :: rest => filesOfTree (pre ++ [d.1]) d.2 ++ filesOfForest pre rest

end

/-- The files directly inside the directory — the `iterdir` enumeration
filtered by `is_file`. -/
def directFilesOf (pre : List String) : FSTree → List (List String)
  | .node fs _ => fs.map (fun n => pre ++ [n])

/-- `path.suffix.lower() in SUPPORTED_EXTENSIONS` for a component path. -/
def isImageFile (p : List String) : Bool :=
  SUPPORTED_EXTENSIONS.contains (pyLower (nameSuffix (p.getLastD emptyStr)))

/-- `get_image_files` (`anthropic_image_converter.py` lines 52-69;
`optimized_image_sender.py` lines 94-120 behaves identically once the
root is an existing directory): enumerate, keep supported extensions,
and return `sorted(files)`. -/
def get_image_files (root : List String) (t : FSTree) (recursive : Bool) : List (List String) :=
  List.insertionSort (fun a b => a ≤ b)
    (((if recursive then filesOfTree root t else directFilesOf root t).filter
      (fun p => isImageFile p)))

/-! ## Metadata dictionaries and `process_image` -/

/-- A JSON-serialisable Python value; only string values are ever
inspected by the claims, other values stay opaque. -/
inductive PyVal where
  | str : String → PyVal
  | other : ℕ → PyVal

/-- A Python dict as a lookup function (insertion order is irrelevant to
every claim). -/
abbrev PyDict : Type := String → Option PyVal

/-- `d.update({k: v})`: later writes win. -/
def dictUpdate (d : PyDict) (k : String) (v : PyVal) : PyDict :=
  fun q => if q = k then some v else d q

/-- `MIME_TYPE_MAP.get(output_format.lower(), 'image/jpeg')`. -/
def mimeTypeFor (output_format : String) : String :=
  let f := pyLower output_format
  if f = strJpg ∨ f = strJpeg then mimeJpeg
  else if f = strPng then mimePng
  else if f = strWebp then mimeWebp
  else if f = strGif then mimeGif
  else mimeJpeg

/-- The output path `save_optimized_image` writes to (the disk write
itself is external). -/
def save_optimized_image_path (output_dir original_path output_format : String) : String :=
  output_dir ++ slashStr ++ (pathStem original_path ++ dotStr ++ pyLower output_format)

/-- A `json.dump` call as performed by `save_api_response`: target path,
value, and the serialisation options passed (`indent=2`,
`ensure_ascii=False`). -/
structure JsonWrite (J : Type) where
  path : String
  value : J
  indent : ℕ
  ensureAscii : Bool

/-- `save_api_response` (`optimized_image_sender.py` lines 307-332)
records the write of `response` to `output_file` with 2-space
indentation and unescaped non-ASCII. -/
def save_api_response {J : Type} (response : J) (output_file : String) : JsonWrite J :=
  ⟨output_file, response, 2, false⟩

/-- The target the response is saved to (`process_image` lines 423-426):
a directory or an extensionless path gets `<stem>_response.json`
appended. -/
def response_save_target (save_path_is_dir : Bool) (save_response_path source_path : String) :
    String :=
  if save_path_is_dir = true ∨ pathSuffix save_response_path = emptyStr then
    save_response_path ++ slashStr ++ (pathStem source_path ++ respJsonStr)
  else save_response_path

/-- The JSON envelope POSTed by `send_to_api`. -/
structure SendPayload where
  content_type : String
  image_base64 : String
  metadata : PyDict

/-- What one `process_image` call did: its boolean return value, the
envelope it POSTed (if it got that far), the parsed API response, and
the response-file write it performed. -/
structure ProcessResult (J : Type) where
  success : Bool
  sent : Option SendPayload
  response : Option J
  responseWrite : Option (JsonWrite J)

/-- The envelope `process_image` builds for a successful optimization
producing `data` (lines 384-414 of the source): the caller metadata is
updated with the reserved `filename` / `original_format` keys, then
optionally `optimized_path` and the base64 payload, and paired with the
MIME type and the base64 text. -/
def process_payload (input_path output_format : String) (metadata : PyDict)
    (save_optimized_dir : Option String) (include_base64_in_metadata : Bool)
    (b64encode : List ℕ → String) (save_optimized_fails : Bool)
    (data : List ℕ) : SendPayload :=
  let md0 := dictUpdate
    (dictUpdate metadata keyFilename (PyVal.str (pathName input_path)))
    keyOriginalFormat (PyVal.str (pyLower (lstripDots (pathSuffix input_path))))
  let md1 := match save_optimized_dir with
    | none => md0
    | some dir =>
      if save_optimized_fails then md0
      else dictUpdate md0 keyOptimizedPath
        (PyVal.str (save_optimized_image_path dir input_path output_format))
  let b64data := b64encode data
  let md2 := if include_base64_in_metadata then
      dictUpdate md1 keyImageBase64 (PyVal.str b64data)
    else md1
  ⟨mimeTypeFor output_format, b64data, md2⟩

/-- `process_image` from `optimized_image_sender.py` (lines 354-430).
External effects are oracles: `ops` for PIL, `b64encode` for
`base64.b64encode(..).decode()`, `save_optimized_fails` for an IO error
inside `save_optimized_image`, `post` for the HTTP POST of a given
payload, `is_falsy` for Python truthiness of the parsed response (the
source tests `if not response`), `save_response_is_dir` for
`Path(save_response_path).is_dir()`. -/
def process_image {Img J : Type}
    (input_path : String)
    (output_format : String)
    (quality max_dimension : ℕ)
    (metadata : PyDict)
    (save_optimized_dir : Option String)
    (save_response_path : Option String)
    (include_base64_in_metadata : Bool)
    (ops : PILOps Img)
    (b64encode : List ℕ → String)
    (save_optimized_fails : Bool)
    (post : SendPayload → PostOutcome J)
    (is_falsy : J → Bool)
    (save_response_is_dir : Bool) : ProcessResult J :=
  match (optimize_image_memory ops output_format quality max_dimension).1 with
  | none => ⟨false, none, none, none⟩
  | some data =>
    if data = [] then ⟨false, none, none, none⟩
    else
      let payload := process_payload input_path output_format metadata save_optimized_dir
        include_base64_in_metadata b64encode save_optimized_fails data
      match (send_to_api (post payload)).1 with
      | none => ⟨false, some payload, none, none⟩
      | some r =>
        if is_falsy r then ⟨false, some payload, some r, none⟩
        else
          match save_response_path with
          | none => ⟨true, some payload, some r, none⟩
          | some sp =>
            ⟨true, some payload, some r,
              some (save_api_response r (response_save_target save_response_is_dir sp input_path))⟩

/-! ## The two `main` entry points -/

/-- `args.api_key or DEFAULT_API_KEY`: `None` and the empty string are
falsy, so either falls back to the environment value. -/
def effective_api_key (arg_key : Option String) (env_key : String) : String :=
  match arg_key with
  | some s => if s = emptyStr then env_key else s
  | none => env_key

/-- How the sender's `main` terminated. -/
inductive SenderExit where
  | noKey : SenderExit
  | noImages : SenderExit
  | done : ℕ → ℕ → SenderExit

/-- Process exit status for each termination: `sys.exit(1)` on a missing
key or an empty directory listing, `sys.exit(1)` after the loop iff any
file failed, and falling off the end exits 0. -/
def senderExitCode : SenderExit → ℕ
  | .noKey => 1
  | .noImages => 1
  | .done _ e => if 0 < e then 1 else 0

/-- `main` of `optimized_image_sender.py` (lines 432-488), over an
abstract per-file processing oracle.  Returns how it terminated and the
list of files it processed (empty means no image was touched and no
network call issued). -/
def sender_main {α : Type} (arg_key : Option String) (env_key : String)
    (input_is_dir : Bool) (dir_files : List α) (input_file : α)
    (process : α → Bool) : SenderExit × List α :=
  if effective_api_key arg_key env_key = emptyStr then (.noKey, [])
  else if input_is_dir then
    if dir_files.isEmpty then (.noImages, [])
    else
      let results := dir_files.map process
      (.done (results.count true) (results.count false), dir_files)
  else
    let results := [input_file].map process
    (.done (results.count true) (results.count false), [input_file])

/-- `main` of `anthropic_image_converter.py` (lines 155-178): count the
successes and fall off the end.  It never calls `sys.exit`, so the
interpreter always exits with status 0; the pair is (success count,
process exit status). -/
def converter_main {α : Type} (input_files : List α) (optimize : α → Bool) : ℕ × ℕ :=
  ((input_files.map optimize).count true, 0)

/-! ## Concrete fixtures used by the witness theorems -/

/-- An encoded output one byte over the 5 MiB ceiling. -/
def wBytes : List ℕ := List.replicate 5242881 0

/-- A tiny encoded output. -/
def wSmallBytes : List ℕ := [1, 2, 3]

/-- A PIL oracle producing an oversized encoding in every format. -/
def wOps : PILOps Unit where
  openImage := some ()
  mode := fun _ => strRGB
  compositeWhite := fun i => i
  size := fun _ => (10, 10)
  resizeTo := fun i _ => i
  convertRGB := fun i => i
  saveJPEG := fun _ _ => some wBytes
  savePNG := fun _ => some wBytes
  saveWEBP := fun _ _ => some wBytes

/-- A PIL oracle producing a small encoding in every format. -/
def wOpsSmall : PILOps Unit where
  openImage := some ()
  mode := fun _ => strRGB
  compositeWhite := fun i => i
  size := fun _ => (10, 10)
  resizeTo := fun i _ => i
  convertRGB := fun i => i
  saveJPEG := fun _ _ => some wSmallBytes
  savePNG := fun _ => some wSmallBytes
  saveWEBP := fun _ _ => some wSmallBytes

def wInputPath : String := "imgs/photo.png"

def wRespDir : String := "responses"

def wB64Out : String := "QUJD"

def wB64 : List ℕ → String := fun _ => wB64Out

/-- A network oracle that always answers 200 with parsed body `7`. -/
def wPost : SendPayload → PostOutcome ℕ := fun _ => PostOutcome.resp ⟨200, some 7, emptyStr⟩

/-- Caller-supplied metadata that tries to claim the reserved keys. -/
def wCallerMeta : PyDict :=
  fun q => if q = keyFilename then some (PyVal.other 0)
    else if q = keyOriginalFormat then some (PyVal.other 1)
    else none

/-! ## Helper lemmas (shared; none of them is a claim theorem) -/

theorem strPng_ne_strJpg : strPng ≠ strJpg := by decide

theorem strWebp_ne_strJpg : strWebp ≠ strJpg := by decide

theorem strWebp_ne_strPng : strWebp ≠ strPng := by decide

theorem keyFilename_ne_b64 : keyFilename ≠ keyImageBase64 := by decide

theorem keyFilename_ne_opt : keyFilename ≠ keyOptimizedPath := by decide

theorem keyFilename_ne_fmt : keyFilename ≠ keyOriginalFormat := by decide

theorem keyFmt_ne_b64 : keyOriginalFormat ≠ keyImageBase64 := by decide

theorem keyFmt_ne_opt : keyOriginalFormat ≠ keyOptimizedPath := by decide

/-- The encode step does not consult the fallback for the three formats
argparse admits. -/
theorem encodeStep_fallback {Img : Type} (ops : PILOps Img) (f : String) (q : ℕ) (r : Img)
    (fb1 fb2 : Option (List ℕ))
    (hfmt : pyLower f = strJpg ∨ pyLower f = strPng ∨ pyLower f = strWebp) :
    encodeStep ops f q r fb1 = encodeStep ops f q r fb2 := by
  rcases hfmt with h | h | h <;>
    simp [encodeStep, h, strPng_ne_strJpg, strWebp_ne_strJpg, strWebp_ne_strPng]

theorem count_false_eq_zero_iff_all (l : List Bool) :
    l.count false = 0 ↔ l.all (fun b => b) = true := by
  induction l with
  | nil => simp
  | cons b t ih => cases b <;> simp [List.count_cons, ih]

/-- The sender's final `sys.exit(1) iff error_count > 0`, restated with
`all`. -/
theorem exit_code_of_counts (l : List Bool) :
    (if 0 < l.count false then 1 else 0) = (if l.all (fun b => b) then 0 else 1) := by
  cases h : l.all (fun b => b) with
  | true =>
    have h0 : l.count false = 0 := (count_false_eq_zero_iff_all l).mpr h
    simp [h0]
  | false =>
    have hne : l.count false ≠ 0 := by
      intro hc
      rw [(count_false_eq_zero_iff_all l).mp hc] at h
      cases h
    simp [Nat.pos_of_ne_zero hne]

theorem wBytes_length : wBytes.length = 5242881 := by
  rw [wBytes]
  exact List.length_replicate _ _

/-! ## The claims -/

/-- Claim C1: the resize policy is claimed to map every input with
`max(width, height) > maxDimension` to a pair whose longer side equals
`maxDimension` exactly and whose shorter side equals
`floor(short * maxDimension / long)`.  The code computes the shorter
side as `int(height * (max_dimension / width))` in double precision; at
(width, height, maxDimension) = (98, 49, 2) the double product
`49 * (2/98)` is `0.9999999999999999`, which truncates to 0, while the
exact value `floor(49 * 2 / 98)` is 1.  This theorem evaluates the code
at that input and contrasts it with the exact formula. -/
theorem resize_dims_float_truncation_bug :
    resize_dims 98 49 2 = (2, 0) ∧ 49 * 2 / 98 = 1 := by
  constructor
  · decide
  · decide

/-- Claim C2: whenever both source dimensions are already at most
`maxDimension`, the resize policy returns them unchanged — no upscaling
ever occurs. -/
theorem resize_dims_no_upscale (width height max_dimension : ℕ)
    (_hw : 1 ≤ width) (_hh : 1 ≤ height) (_hm : 1 ≤ max_dimension)
    (hwm : width ≤ max_dimension) (hhm : height ≤ max_dimension) :
    resize_dims width height max_dimension = ((width : ℤ), (height : ℤ)) := by
  unfold resize_dims
  rw [if_pos ⟨hwm, hhm⟩]

/-- Witness for claim C2 at (800, 600, 1568). -/
theorem resize_dims_no_upscale_witness :
    resize_dims 800 600 1568 = ((800 : ℤ), (600 : ℤ)) :=
  resize_dims_no_upscale 800 600 1568 (by decide) (by decide) (by decide) (by decide)
    (by decide)

/-- Claim C3: the claim says every triple of positive integers yields
two returned dimensions that are at least 1, so the subsequent resize
is well-defined.  At (49, 49, 1) the code computes `int(49 * (1/49))`,
and the double product `49 * (1/49)` is `0.9999999999999999`, which
truncates to a returned width of 0. -/
theorem resize_dims_zero_dimension_bug :
    resize_dims 49 49 1 = (0, 1) ∧ ¬(1 ≤ (resize_dims 49 49 1).1) := by
  constructor
  · decide
  · decide

/-- Claim C4: when the source decodes and encodes successfully and the
encoded output exceeds 5,242,880 bytes, both optimize variants still
succeed — the sender returns the oversized bytes, the converter returns
`True` — with only the warning flag set; the 5 MiB ceiling never causes
a failure. -/
theorem optimize_oversize_only_warns {Img : Type} (ops : PILOps Img) (output_format : String)
    (quality max_dimension input_size : ℕ) (data : List ℕ)
    (hfmt : pyLower output_format = strJpg ∨ pyLower output_format = strPng ∨
      pyLower output_format = strWebp)
    (hsz : 0 < input_size)
    (hmem : (optimize_image_memory ops output_format quality max_dimension).1 = some data)
    (hbig : MAX_FILE_SIZE_BYTES < data.length) :
    optimize_image_memory ops output_format quality max_dimension = (some data, true) ∧
    optimize_image ops output_format quality max_dimension input_size = (true, true) := by
  revert hmem
  simp only [optimize_image_memory, optimize_image]
  cases ho : ops.openImage with
  | none =>
    dsimp only
    intro hmem
    simp at hmem
  | some img0 =>
    dsimp only
    rw [encodeStep_fallback ops output_format quality
      (resize_image ops (convertForJpg ops output_format img0) max_dimension) none (some [])
      hfmt]
    cases he : encodeStep ops output_format quality
        (resize_image ops (convertForJpg ops output_format img0) max_dimension) (some []) with
    | none =>
      intro hmem
      simp at hmem
    | some d =>
      intro hmem
      obtain rfl : d = data := by simpa using hmem
      have hz : input_size ≠ 0 := Nat.pos_iff_ne_zero.mp hsz
      constructor
      · simp [hbig]
      · simp [hz, hbig]

/-- Witness for claim C4: a PIL oracle whose JPEG encoding is 5,242,881
bytes, one byte over the ceiling. -/
theorem optimize_oversize_only_warns_witness :
    optimize_image_memory wOps strJpg 90 1568 = (some wBytes, true) ∧
    optimize_image wOps strJpg 90 1568 1000 = (true, true) :=
  optimize_oversize_only_warns wOps strJpg 90 1568 1000 wBytes (Or.inl (by decide)) (by decide)
    (by rfl) (by rw [wBytes_length]; decide)

/-- Claim C5, counterexample: the claim says a parsed JSON response is
returned if and only if the HTTP status is 200, but a 200 response
whose body does not parse (`response.json()` raises; the generic
`except` handler catches it) makes `send_to_api` return `None` even
though the status is 200. -/
theorem send_to_api_200_unparseable :
    (send_to_api (PostOutcome.resp (HTTPResponse.mk 200 (none : Option ℕ) emptyStr))).1 = none ∧
    (HTTPResponse.mk 200 (none : Option ℕ) emptyStr).status = 200 := by
  constructor
  · rfl
  · rfl

/-- Claim C5 (amended): `send_to_api` returns a parsed JSON value iff
the POST completed with HTTP status 200 and the body parsed as JSON; in
every other case — 401, 403, any other status, a network-level
exception, or a 200 body that fails to parse — it returns `None`, and
it never propagates an exception (it is a total function of the POST
outcome, so the batch continues with the next file). -/
theorem send_to_api_classification {J : Type} (post : PostOutcome J) (j : J) :
    (send_to_api post).1 = some j ↔
      ∃ r : HTTPResponse J, post = PostOutcome.resp r ∧ r.status = 200 ∧ r.jsonBody = some j := by
  cases post with
  | exn => simp [send_to_api]
  | resp r =>
    by_cases h200 : r.status = 200
    · cases hb : r.jsonBody with
      | none => simp [send_to_api, h200, hb]
      | some jv => simp [send_to_api, h200, hb, eq_comm]
    · by_cases h401 : r.status = 401
      · simp [send_to_api, h200, h401]
      · by_cases h403 : r.status = 403
        · simp [send_to_api, h200, h401, h403]
        · simp [send_to_api, h200, h401, h403]

/-- Claim C6: when the effective API key (the `--api-key` argument with
the environment variable as fallback, empty strings being falsy) is
empty, the sender's `main` stops with `sys.exit(1)` before touching any
image or issuing any network call: it terminates in the `noKey` state,
whose exit code is 1, having processed the empty list of files. -/
theorem sender_main_aborts_without_key {α : Type} (arg_key : Option String) (env_key : String)
    (input_is_dir : Bool) (dir_files : List α) (input_file : α) (process : α → Bool)
    (hkey : effective_api_key arg_key env_key = emptyStr) :
    sender_main arg_key env_key input_is_dir dir_files input_file process =
      (SenderExit.noKey, []) ∧
    senderExitCode SenderExit.noKey = 1 := by
  constructor
  · unfold sender_main
    rw [if_pos hkey]
  · rfl

/-- Witness for claim C6: no `--api-key`, empty environment key. -/
theorem sender_main_aborts_without_key_witness :
    sender_main none emptyStr true ([] : List ℕ) 0 (fun _ => true) = (SenderExit.noKey, []) ∧
    senderExitCode SenderExit.noKey = 1 :=
  sender_main_aborts_without_key none emptyStr true [] 0 (fun _ => true) (by rfl)

/-- Claim C7: on an existing directory, the batch walker returns
exactly the enumerated files (direct children when non-recursive, all
transitive files when recursive) whose extension is, case-insensitively,
one of {.jpg, .jpeg, .png, .gif, .webp}, and the returned list is
sorted in the lexicographic order on paths. -/
theorem get_image_files_spec (root : List String) (t : FSTree) (recursive : Bool) :
    (∀ p, p ∈ get_image_files root t recursive ↔
        p ∈ (if recursive then filesOfTree root t else directFilesOf root t) ∧
          isImageFile p = true) ∧
    List.Sorted (fun a b => a ≤ b) (get_image_files root t recursive) := by
  constructor
  · intro p
    unfold get_image_files
    rw [(List.perm_insertionSort (fun a b => a ≤ b) _).mem_iff, List.mem_filter]
  · exact List.sorted_insertionSort _ _

/-- Claim C8: the local-only converter CLI always exits 0 on completion
(its `main` never calls `sys.exit`), while the sender CLI — once the
key is present and, for a directory input, the listing is non-empty —
exits 0 iff every file in the batch succeeded and 1 otherwise. -/
theorem cli_exit_code_policy {α β : Type} (input_files : List α) (optimize : α → Bool)
    (arg_key : Option String) (env_key : String) (input_is_dir : Bool)
    (dir_files : List β) (input_file : β) (process : β → Bool)
    (hkey : effective_api_key arg_key env_key ≠ emptyStr)
    (himg : input_is_dir = true → dir_files ≠ []) :
    (converter_main input_files optimize).2 = 0 ∧
    senderExitCode (sender_main arg_key env_key input_is_dir dir_files input_file process).1 =
      (if ((if input_is_dir then dir_files else [input_file]).map process).all (fun b => b)
        then 0 else 1) := by
  refine ⟨rfl, ?_⟩
  unfold sender_main
  rw [if_neg hkey]
  cases input_is_dir with
  | true =>
    have hd : dir_files ≠ [] := himg rfl
    have hde : dir_files.isEmpty = false := by
      cases dir_files with
      | nil => exact absurd rfl hd
      | cons a l => rfl
    simp only [if_true, hde, Bool.false_eq_true, if_false, senderExitCode]
    exact exit_code_of_counts (dir_files.map process)
  | false =>
    simp only [Bool.false_eq_true, if_false, senderExitCode]
    exact exit_code_of_counts ([input_file].map process)

/-- Witness for claim C8: a two-file batch with one failure. -/
theorem cli_exit_code_policy_witness :
    (converter_main ([true] : List Bool) (fun b => b)).2 = 0 ∧
    senderExitCode (sender_main (some strJpg) emptyStr true [true, false] true (fun b => b)).1 =
      (if ([true, false].map (fun b => b)).all (fun b => b) then 0 else 1) :=
  cli_exit_code_policy [true] (fun b => b) (some strJpg) emptyStr true [true, false] true
    (fun b => b) (by decide) (by decide)

/-- Claim C9: when a response-save path is given and the call succeeds
with a parsed response, the response is written to
`<path>/<stem(source)>_response.json` when the path is an existing
directory or has no extension, and to the path itself otherwise;
the write carries `indent=2` and `ensure_ascii=False`. -/
theorem process_image_saves_response {Img J : Type} (input_path output_format : String)
    (quality max_dimension : ℕ) (metadata : PyDict) (save_optimized_dir : Option String)
    (sp : String) (include_base64_in_metadata : Bool) (ops : PILOps Img)
    (b64encode : List ℕ → String) (save_optimized_fails : Bool)
    (post : SendPayload → PostOutcome J) (is_falsy : J → Bool) (save_response_is_dir : Bool)
    (r : J)
    (hs : (process_image input_path output_format quality max_dimension metadata
        save_optimized_dir (some sp) include_base64_in_metadata ops b64encode
        save_optimized_fails post is_falsy save_response_is_dir).success = true)
    (hr : (process_image input_path output_format quality max_dimension metadata
        save_optimized_dir (some sp) include_base64_in_metadata ops b64encode
        save_optimized_fails post is_falsy save_response_is_dir).response = some r) :
    (process_image input_path output_format quality max_dimension metadata
        save_optimized_dir (some sp) include_base64_in_metadata ops b64encode
        save_optimized_fails post is_falsy save_response_is_dir).responseWrite =
      some (save_api_response r
        (if save_response_is_dir = true ∨ pathSuffix sp = emptyStr then
          sp ++ slashStr ++ (pathStem input_path ++ respJsonStr)
        else sp)) := by
  revert hs hr
  simp only [process_image]
  cases (optimize_image_memory ops output_format quality max_dimension).1 with
  | none =>
    intro hs hr
    simp at hs
  | some data =>
    dsimp only
    by_cases hd : data = []
    · rw [if_pos hd]
      intro hs hr
      simp at hs
    · rw [if_neg hd]
      cases (send_to_api (post (process_payload input_path output_format metadata
          save_optimized_dir include_base64_in_metadata b64encode save_optimized_fails
          data))).1 with
      | none =>
        intro hs hr
        simp at hs
      | some rr =>
        dsimp only
        by_cases hf : is_falsy rr
        · rw [if_pos hf]
          intro hs hr
          simp at hs
        · rw [if_neg hf]
          intro hs hr
          obtain rfl : rr = r := by simpa using hr
          simp [response_save_target]

/-- Witness for claim C9: successful run with the save path being an
existing directory. -/
theorem process_image_saves_response_witness :
    (process_image wInputPath strJpg 90 1568 wCallerMeta none (some wRespDir) true wOpsSmall wB64
        false wPost (fun _ => false) true).responseWrite =
      some (save_api_response 7
        (if (true : Bool) = true ∨ pathSuffix wRespDir = emptyStr then
          wRespDir ++ slashStr ++ (pathStem wInputPath ++ respJsonStr)
        else wRespDir)) :=
  process_image_saves_response wInputPath strJpg 90 1568 wCallerMeta none wRespDir true wOpsSmall
    wB64 false wPost (fun _ => false) true 7 (by rfl) (by rfl)

/-- The reserved keys of every payload `process_image` builds:
`filename` and `original_format` are written after the caller metadata
is merged, so their values always come from the input path. -/
theorem process_payload_reserved (input_path output_format : String) (metadata : PyDict)
    (sod : Option String) (ib : Bool) (b64encode : List ℕ → String) (sf : Bool)
    (data : List ℕ) :
    (process_payload input_path output_format metadata sod ib b64encode sf data).metadata
        keyFilename = some (PyVal.str (pathName input_path)) ∧
    (process_payload input_path output_format metadata sod ib b64encode sf data).metadata
        keyOriginalFormat = some (PyVal.str (pyLower (lstripDots (pathSuffix input_path)))) := by
  cases sod <;> cases ib <;> cases sf <;>
    simp [process_payload, dictUpdate, keyFilename_ne_b64, keyFilename_ne_opt,
      keyFilename_ne_fmt, keyFmt_ne_b64, keyFmt_ne_opt]

/-- Every envelope `process_image` POSTs is a `process_payload` for the
bytes the optimization produced. -/
theorem process_image_sent_shape {Img J : Type} (input_path output_format : String)
    (quality max_dimension : ℕ) (metadata : PyDict) (save_optimized_dir : Option String)
    (save_response_path : Option String) (include_base64_in_metadata : Bool) (ops : PILOps Img)
    (b64encode : List ℕ → String) (save_optimized_fails : Bool)
    (post : SendPayload → PostOutcome J) (is_falsy : J → Bool) (save_response_is_dir : Bool) :
    (process_image input_path output_format quality max_dimension metadata save_optimized_dir
        save_response_path include_base64_in_metadata ops b64encode save_optimized_fails post
        is_falsy save_response_is_dir).sent = none ∨
      ∃ data : List ℕ,
        (process_image input_path output_format quality max_dimension metadata
            save_optimized_dir save_response_path include_base64_in_metadata ops b64encode
            save_optimized_fails post is_falsy save_response_is_dir).sent =
          some (process_payload input_path output_format metadata save_optimized_dir
            include_base64_in_metadata b64encode save_optimized_fails data) := by
  simp only [process_image]
  cases (optimize_image_memory ops output_format quality max_dimension).1 with
  | none => left; rfl
  | some data =>
    dsimp only
    by_cases hd : data = []
    · rw [if_pos hd]; left; rfl
    · rw [if_neg hd]
      cases (send_to_api (post (process_payload input_path output_format metadata
          save_optimized_dir include_base64_in_metadata b64encode save_optimized_fails
          data))).1 with
      | none => right; exact ⟨data, rfl⟩
      | some rr =>
        dsimp only
        by_cases hf : is_falsy rr
        · rw [if_pos hf]; right; exact ⟨data, rfl⟩
        · rw [if_neg hf]
          cases save_response_path with
          | none => right; exact ⟨data, rfl⟩
          | some sp => right; exact ⟨data, rfl⟩

/-- Claim C10: in every envelope `process_image` sends, the metadata
keys `filename` and `original_format` hold the values derived from the
input path — the file's name and its lower-cased, dot-stripped suffix —
overwriting whatever the caller-supplied metadata had under those keys,
because the reserved keys are written after the merge. -/
theorem process_image_sets_reserved_metadata {Img J : Type} (input_path output_format : String)
    (quality max_dimension : ℕ) (metadata : PyDict) (save_optimized_dir : Option String)
    (save_response_path : Option String) (include_base64_in_metadata : Bool) (ops : PILOps Img)
    (b64encode : List ℕ → String) (save_optimized_fails : Bool)
    (post : SendPayload → PostOutcome J) (is_falsy : J → Bool) (save_response_is_dir : Bool)
    (payload : SendPayload)
    (hsent : (process_image input_path output_format quality max_dimension metadata
        save_optimized_dir save_response_path include_base64_in_metadata ops b64encode
        save_optimized_fails post is_falsy save_response_is_dir).sent = some payload) :
    payload.metadata keyFilename = some (PyVal.str (pathName input_path)) ∧
    payload.metadata keyOriginalFormat =
      some (PyVal.str (pyLower (lstripDots (pathSuffix input_path)))) := by
  rcases process_image_sent_shape input_path output_format quality max_dimension metadata
      save_optimized_dir save_response_path include_base64_in_metadata ops b64encode
      save_optimized_fails post is_falsy save_response_is_dir with h | ⟨data, h⟩
  · rw [h] at hsent
    cases hsent
  · rw [h] at hsent
    obtain rfl : payload = process_payload input_path output_format metadata save_optimized_dir
        include_base64_in_metadata b64encode save_optimized_fails data := by
      injection hsent with h2
      exact h2.symm
    exact process_payload_reserved input_path output_format metadata save_optimized_dir
      include_base64_in_metadata b64encode save_optimized_fails data

/-- Witness for claim C10: caller metadata that tries to set both
reserved keys is overwritten in the payload actually sent. -/
theorem process_image_sets_reserved_metadata_witness :
    (process_payload wInputPath strJpg wCallerMeta none true wB64 false wSmallBytes).metadata
        keyFilename = some (PyVal.str (pathName wInputPath)) ∧
    (process_payload wInputPath strJpg wCallerMeta none true wB64 false wSmallBytes).metadata
        keyOriginalFormat = some (PyVal.str (pyLower (lstripDots (pathSuffix wInputPath)))) :=
  process_image_sets_reserved_metadata wInputPath strJpg 90 1568 wCallerMeta none none true
    wOpsSmall wB64 false wPost (fun _ => false) false
    (process_payload wInputPath strJpg wCallerMeta none true wB64 false wSmallBytes) (by rfl)
